import Mathlib

/-!
Verification development for `gammapy/utils/modeling.py`: model classes that
convert between the gamma-cat catalog representation of gamma-ray sources and
the CTA/Fermi XML source-model exchange format.

The embedding is shallow: each Python class becomes a Lean structure, each
method a Lean function, Python exceptions become an explicit `Except PyErr`
error monad, and Python `float` values are modelled as exact rationals `ℚ`
(the only arithmetic the module performs on values is negation and the
reciprocal `1 / value`, both exact).  Dynamically-typed XML-derived nested
mappings (the output of the vendored `xmltodict` primitive) are modelled by
the inductive type `XVal`.

Rational arithmetic is written through kernel-reducible wrappers (`qmul`,
`qadd`, `qneg`, `qdiv`, built on `Rat.normalize` / `Rat.divInt`), because the
standard `Rat.mul` / `Rat.inv` are `@[irreducible]`; bridge lemmas
(`qmul_eq`, ...) identify them with the ordinary field operations so the
usual algebra applies in proofs while concrete runs still evaluate by `rfl`.
-/

namespace Gammapy

/-- Python exception taxonomy raised by the modeling module.
`unknownModelError` models `UnknownModelError(ValueError)` defined in the
module itself; `noDataAvailableError` models
`gammapy.catalog.gammacat.NoDataAvailableError` (imported, defined outside
this module); the remaining constructors model the builtin Python exceptions
the code can raise (`KeyError`, `TypeError`, `IndexError`, `ValueError`,
`ZeroDivisionError`, `AttributeError`). -/
inductive PyErr where
  | keyError (key : String)
  | typeError (msg : String)
  | indexError (msg : String)
  | valueError (msg : String)
  | zeroDivisionError
  | attributeError (msg : String)
  | unknownModelError (msg : String)
  | noDataAvailableError
deriving DecidableEq, Repr

/-- Nested mapping values produced by the XML primitive (`xmltodict.parse`):
strings (attribute values and text), ordered dictionaries, lists (promotion of
repeated child elements) and `None` (empty elements). -/
inductive XVal where
  | str (s : String)
  | dict (entries : List (String × XVal))
  | list (items : List XVal)
  | null
deriving Repr

/-- A single-quote character (`Char.ofNat 39`), used when modelling Python
`repr` output. -/
def sq : String := String.singleton (Char.ofNat 39)

/-- Kernel-reducible multiplication on `ℚ` (definitionally `Rat.normalize`,
unlike the `@[irreducible]` `Rat.mul`). -/
def qmul (a b : ℚ) : ℚ :=
  Rat.normalize (a.num * b.num) (a.den * b.den) (Nat.mul_ne_zero a.den_nz b.den_nz)

theorem qmul_eq (a b : ℚ) : qmul a b = a * b := by
  rw [Rat.mul_def]; rfl

/-- Kernel-reducible negation on `ℚ`. -/
def qneg (a : ℚ) : ℚ := Rat.divInt (-a.num) a.den

theorem qneg_eq (a : ℚ) : qneg a = -a := (Rat.neg_def a).symm

/-- Kernel-reducible inverse on `ℚ`. -/
def qinv (a : ℚ) : ℚ := Rat.divInt a.den a.num

theorem qinv_eq (a : ℚ) : qinv a = a.inv := (Rat.inv_def a).symm

/-- Kernel-reducible division on `ℚ`. -/
def qdiv (a b : ℚ) : ℚ := qmul a (qinv b)

theorem qdiv_eq (a b : ℚ) : qdiv a b = a / b := by
  rw [Rat.div_def, qdiv, qmul_eq, qinv_eq]

/-- Kernel-reducible addition on `ℚ`. -/
def qadd (a b : ℚ) : ℚ :=
  Rat.normalize (a.num * b.den + b.num * a.den) (a.den * b.den)
    (Nat.mul_ne_zero a.den_nz b.den_nz)

theorem qadd_eq (a b : ℚ) : qadd a b = a + b := by
  rw [Rat.add_def]; rfl

/-- Kernel-reducible embedding `ℤ → ℚ`. -/
def intQ (n : ℤ) : ℚ := ⟨n, 1, Nat.one_ne_zero, Nat.coprime_one_right _⟩

theorem intQ_eq (n : ℤ) : intQ n = (n : ℚ) := by
  have h1 := Rat.num_intCast n
  have h2 := Rat.den_intCast n
  cases hq : (n : ℚ) with
  | mk' num den dnz red => simp_all [intQ]

/-- Kernel-reducible `(10 ^ n : ℚ)`. -/
def pow10Q (n : ℕ) : ℚ := intQ ((10 : ℤ) ^ n)

theorem pow10Q_eq (n : ℕ) : pow10Q n = (10 : ℚ) ^ n := by
  rw [pow10Q, intQ_eq]
  push_cast
  ring

/-- The character `-`. -/
def dashC : Char := Char.ofNat 45

/-- The character `.`. -/
def dotC : Char := Char.ofNat 46

/-- `true` on the decimal digit characters `0`-`9`. -/
def isDigitC (c : Char) : Bool := 48 ≤ c.toNat && c.toNat ≤ 57

/-- The character for a decimal digit `d < 10`. -/
def digitChar (d : ℕ) : Char := Char.ofNat (48 + d)

/-- Numeric value of a decimal digit character. -/
def dval (c : Char) : ℕ := c.toNat - 48

/-- Left fold reading a big-endian decimal digit string starting from `acc`. -/
def parseFold (acc : ℕ) (l : List Char) : ℕ :=
  l.foldl (fun a c => 10 * a + dval c) acc

/-- Big-endian decimal digits of `n` (no leading zeros; `0` renders as `0`),
with explicit fuel so that the kernel can evaluate it. -/
def natToDigitsAux : ℕ → ℕ → List Char
  | 0, _ => []
  | fuel + 1, n => if n < 10 then [digitChar n] else natToDigitsAux fuel (n / 10) ++ [digitChar (n % 10)]

/-- Exactly `k` big-endian decimal digits of `m < 10 ^ k`, with leading
zeros. -/
def fracDigits : ℕ → ℕ → List Char
  | 0, _ => []
  | k + 1, m => digitChar (m / 10 ^ k) :: fracDigits k (m % 10 ^ k)

/-- Smallest `e` with `acc ≤ e < acc + fuel` such that `q * 10 ^ e` is an
integer, or `acc + fuel` when there is none. -/
def findExpAux : ℕ → ℚ → ℕ → ℕ
  | 0, _, acc => acc
  | fuel + 1, q, acc => if (qmul q (pow10Q acc)).den = 1 then acc else findExpAux fuel q (acc + 1)

/-- Number of decimal digits needed after the point to write `q` exactly
(capped at 64). -/
def findExp (q : ℚ) : ℕ := findExpAux 64 q 0

/-- Unsigned decimal rendering `intpart.fracpart` of a nonnegative `qa` with
`n` digits after the point (`n = 0` renders a single `0` fraction digit, as
`str(2.0) = '2.0'`). -/
def formatCore (qa : ℚ) (n : ℕ) : List Char :=
  let m := (qmul qa (pow10Q n)).num.toNat
  let ip := m / 10 ^ n
  let fp := m % 10 ^ n
  natToDigitsAux (ip + 1) ip ++ [dotC] ++ (if n = 0 then [digitChar 0] else fracDigits n fp)

/-- Modelled from the spec: Python `str(float)` serialization of a parameter
value (a collaborator of the module, not code under `src/`).  Renders the
exact decimal expansion `[-]intpart.fracpart`, e.g. `-2.3`, `1.0`,
`0.000000000001`; values whose decimal expansion does not terminate within 64
digits are truncated (Python floats always have a terminating expansion). -/
def formatValChars (q : ℚ) : List Char :=
  let n := findExp q
  if q.num < 0 then dashC :: formatCore (qneg q) n else formatCore q n

/-- String form of `formatValChars`. -/
def formatVal (q : ℚ) : String := String.mk (formatValChars q)

/-- Parse an unsigned decimal literal `digits[.digits]`, consuming the whole
input. -/
def parseUnsignedQ (cs : List Char) : Option ℚ :=
  let ip := cs.takeWhile isDigitC
  let rest := cs.dropWhile isDigitC
  if ip.isEmpty then none
  else
    match rest with
    | [] => some (intQ (parseFold 0 ip))
    | c :: rest2 =>
      if c = dotC then
        let fp := rest2.takeWhile isDigitC
        let rest3 := rest2.dropWhile isDigitC
        if rest3.isEmpty then
          some (qadd (intQ (parseFold 0 ip)) (qdiv (intQ (parseFold 0 fp)) (pow10Q fp.length)))
        else none
      else none

/-- Parse an optionally `-`-signed decimal literal. -/
def parseValChars (cs : List Char) : Option ℚ :=
  match cs with
  | [] => none
  | c :: rest => if c = dashC then (parseUnsignedQ rest).map qneg else parseUnsignedQ (c :: rest)

/-- Modelled from the spec: Python `float(string)` conversion (a collaborator
of the module, not code under `src/`), restricted to plain decimal literals —
the only shape this module ever writes.  An unparseable string raises
`ValueError` as `float` does. -/
def parseVal (s : String) : Except PyErr ℚ :=
  match parseValChars s.data with
  | some q => .ok q
  | none => .error (.valueError ("could not convert string to float: " ++ sq ++ s ++ sq))

/-- Association-list lookup used to model Python `dict` indexing (keys are
unique in dictionaries produced by the XML primitive). -/
def assocFind (entries : List (String × XVal)) (key : String) : Option XVal :=
  match entries with
  | [] => none
  | e :: rest => if e.1 = key then some e.2 else assocFind rest key

/-- Python `data[key]`: mapping lookup on a dictionary (`KeyError` when
missing), `TypeError` on strings, lists and `None`. -/
def pyGetItem (v : XVal) (key : String) : Except PyErr XVal :=
  match v with
  | .dict entries =>
    match assocFind entries key with
    | some x => .ok x
    | none => .error (.keyError key)
  | .str _ => .error (.typeError "string indices must be integers")
  | .list _ => .error (.typeError "list indices must be integers or slices, not str")
  | .null => .error (.typeError "NoneType object is not subscriptable")

/-- Python `data.get(key, default)`: only dictionaries have `.get`; other
values raise `AttributeError`. -/
def pyGet (v : XVal) (key : String) (default : XVal) : Except PyErr XVal :=
  match v with
  | .dict entries =>
    match assocFind entries key with
    | some x => .ok x
    | none => .ok default
  | _ => .error (.attributeError ("object has no attribute " ++ sq ++ "get" ++ sq))

/-- Python iteration `for x in data`: a list yields its items, a dictionary
yields its keys (as strings), a string yields its characters, `None` is not
iterable. -/
def pyIter (v : XVal) : Except PyErr (List XVal) :=
  match v with
  | .list items => .ok items
  | .dict entries => .ok (entries.map fun e => XVal.str e.1)
  | .str s => .ok (s.data.map fun c => XVal.str (String.singleton c))
  | .null => .error (.typeError "NoneType object is not iterable")

/-- Python `key in data` membership test (only the dictionary case is ever
reached by this module; on other values the module has already raised). -/
def pyContains (v : XVal) (key : String) : Bool :=
  match v with
  | .dict entries => (assocFind entries key).isSome
  | _ => false

/-- Python `str(x)` as used by `'...{}'.format(x)`: a string formats as
itself; other values format as their `repr` (rendered by `xvalRepr`). -/
def xvalReprAux : ℕ → XVal → String
  | 0, _ => "..."
  | _ + 1, .str s => sq ++ s ++ sq
  | _ + 1, .null => "None"
  | fuel + 1, .dict entries =>
    "OrderedDict([" ++
      String.intercalate ", "
        (entries.map fun e => "(" ++ sq ++ e.1 ++ sq ++ ", " ++ xvalReprAux fuel e.2 ++ ")") ++
      "])"
  | fuel + 1, .list items =>
    "[" ++ String.intercalate ", " (items.map fun x => xvalReprAux fuel x) ++ "]"

/-- `repr` of an `XVal` (depth capped; documents in this module are shallow). -/
def xvalRepr (v : XVal) : String := xvalReprAux 32 v

/-- `str(x)` for message interpolation: strings verbatim, the rest via
`xvalRepr`. -/
def pyStr (v : XVal) : String :=
  match v with
  | .str s => s
  | _ => xvalRepr v

/-- Python `x == s` for a string literal `s`: equality is `False` whenever `x`
is not a string. -/
def xvalEqStr (v : XVal) (s : String) : Bool :=
  match v with
  | .str s2 => s2 = s
  | _ => false

/-- Python `x in l` for a list of string literals `l`. -/
def xvalMemStr (v : XVal) (l : List String) : Bool :=
  match v with
  | .str s => l.contains s
  | _ => false

/-- `class Parameter`: a named physical value with a unit.  `value` is the
float coerced by `__init__` (modelled exactly as a rational), `unit` the
free-form unit string. -/
structure Parameter where
  name : String
  value : ℚ
  unit : String
deriving DecidableEq, Repr

/-- `Parameter.__repr__`:
`'Parameter(name={name!r}, value={value!r}, unit={unit!r})'`. -/
def Parameter.pyRepr (p : Parameter) : String :=
  "Parameter(name=" ++ sq ++ p.name ++ sq ++ ", value=" ++ formatVal p.value ++
    ", unit=" ++ sq ++ p.unit ++ sq ++ ")"

/-- `Parameter.from_dict_xml`: build a parameter from an XML-attribute-shaped
mapping; `@unit` defaults to the empty string, `@value` goes through
`float()`. -/
def Parameter.from_dict_xml (data : XVal) : Except PyErr Parameter := do
  let unitV ← pyGet data "@unit" (XVal.str "")
  let nameV ← pyGetItem data "@name"
  let valueV ← pyGetItem data "@value"
  match nameV, valueV, unitV with
  | .str name, .str value, .str unit => do
    let v ← parseVal value
    pure ⟨name, v, unit⟩
  | _, _, _ => .error (.typeError "float() argument must be a string or a real number")

/-- `Parameter.from_dict_gammacat` source data: the catalog's
`{name, val, unit}` parameter dictionaries (collaborator contract). -/
structure GPar where
  name : String
  val : ℚ
  unit : String
deriving DecidableEq, Repr

/-- `Parameter.from_dict_gammacat`: `cls(name=data['name'], value=data['val'],
unit=data['unit'])`. -/
def Parameter.from_dict_gammacat (data : GPar) : Parameter :=
  ⟨data.name, data.val, data.unit⟩

/-- `Parameter.to_xml`: the fixed template
`'        <parameter name="{name}" value="{value}" unit="{unit}"/>'`. -/
def Parameter.to_xml (p : Parameter) : String :=
  "        <parameter name=\"" ++ p.name ++ "\" value=\"" ++ formatVal p.value ++
    "\" unit=\"" ++ p.unit ++ "\"/>"

/-- `class ParameterSet`: an ordered list of parameters. -/
structure ParameterSet where
  data : List Parameter
deriving DecidableEq, Repr

/-- `ParameterSet.__repr__`: `'ParameterSet(data={!r})'`. -/
def ParameterSet.pyRepr (ps : ParameterSet) : String :=
  "ParameterSet(data=[" ++ String.intercalate ", " (ps.data.map Parameter.pyRepr) ++ "])"

/-- First parameter of the list whose name equals `name` (the loop body of
`ParameterSet.par`). -/
def parFind (l : List Parameter) (name : String) : Option Parameter :=
  match l with
  | [] => none
  | p :: rest => if name = p.name then some p else parFind rest name

/-- `ParameterSet.par(name)`: first match by exact name, `IndexError` naming
the parameter and the full set when absent. -/
def ParameterSet.par (ps : ParameterSet) (name : String) : Except PyErr Parameter :=
  match parFind ps.data name with
  | some p => .ok p
  | none =>
    .error (.indexError ("Parameter " ++ name ++ " not found for pset: " ++ ps.pyRepr))

/-- `ParameterSet.from_list_of_dict_gammacat`. -/
def ParameterSet.from_list_of_dict_gammacat (data : List GPar) : ParameterSet :=
  ⟨data.map Parameter.from_dict_gammacat⟩

/-- The list comprehension `[Parameter.from_dict_xml(_) for _ in data]` after
iteration. -/
def paramsFromListXml (items : List XVal) : Except PyErr (List Parameter) :=
  match items with
  | [] => .ok []
  | d :: rest => do
    let p ← Parameter.from_dict_xml d
    let ps ← paramsFromListXml rest
    pure (p :: ps)

/-- `ParameterSet.from_list_of_dict_xml`: iterate the (dynamically typed)
argument and convert each element. -/
def ParameterSet.from_list_of_dict_xml (data : XVal) : Except PyErr ParameterSet := do
  let items ← pyIter data
  let ps ← paramsFromListXml items
  pure ⟨ps⟩

/-- `ParameterSet.to_xml`: newline-joined member fragments in stored order. -/
def ParameterSet.to_xml (ps : ParameterSet) : String :=
  String.intercalate "\n" (ps.data.map Parameter.to_xml)

/-- The dynamically-typed argument of `BaseModel.__init__`: a `ParameterSet`,
a raw list of `Parameter`, or anything else (carried as the string `format`
would render it to). -/
inductive ParamsArg where
  | pset (ps : ParameterSet)
  | plist (l : List Parameter)
  | other (s : String)

/-- `BaseModel.__init__`: accept a `ParameterSet` as-is, wrap a list of
`Parameter`, raise `ValueError` on anything else. -/
def BaseModel.init (parameters : ParamsArg) : Except PyErr ParameterSet :=
  match parameters with
  | .pset ps => .ok ps
  | .plist l => .ok ⟨l⟩
  | .other s =>
    .error (.valueError ("Need list of Parameter or ParameterSet. Invalid input: " ++ s))

/-- The three concrete spectral model classes. -/
inductive SpectralKind where
  | powerLaw
  | powerLaw2
  | expCutoff
deriving DecidableEq, Repr

/-- `SpectralModelPowerLaw.xml_type`. -/
def SpectralModelPowerLaw.xml_type : String := "PowerLaw"

/-- `SpectralModelPowerLaw.xml_types`. -/
def SpectralModelPowerLaw.xml_types : List String := [SpectralModelPowerLaw.xml_type]

/-- `SpectralModelPowerLaw2.xml_type`. -/
def SpectralModelPowerLaw2.xml_type : String := "PowerLaw2"

/-- `SpectralModelPowerLaw2.xml_types`. -/
def SpectralModelPowerLaw2.xml_types : List String := [SpectralModelPowerLaw2.xml_type]

/-- `SpectralModelExpCutoff.xml_type`. -/
def SpectralModelExpCutoff.xml_type : String := "ExpCutoff"

/-- `SpectralModelExpCutoff.xml_types`. -/
def SpectralModelExpCutoff.xml_types : List String := [SpectralModelExpCutoff.xml_type]

/-- `xml_type` of a spectral kind. -/
def SpectralKind.xml_type : SpectralKind → String
  | .powerLaw => SpectralModelPowerLaw.xml_type
  | .powerLaw2 => SpectralModelPowerLaw2.xml_type
  | .expCutoff => SpectralModelExpCutoff.xml_type

/-- A concrete spectral model: its class (kind) plus its `ParameterSet`. -/
structure SpectralModel where
  kind : SpectralKind
  parameters : ParameterSet
deriving DecidableEq, Repr

/-- Python `1 / value` on floats: `ZeroDivisionError` at zero, the exact
reciprocal otherwise. -/
def pyRecip (v : ℚ) : Except PyErr ℚ :=
  if v.num = 0 then .error .zeroDivisionError else .ok (qdiv 1 v)

/-- `SpectralModelPowerLaw.from_pset`: Prefactor ← amplitude, Index ← −index,
Scale ← reference, units copied. -/
def SpectralModelPowerLaw.from_pset (pset : ParameterSet) : Except PyErr SpectralModel := do
  let par1 ← pset.par "amplitude"
  let prefactor : Parameter := ⟨"Prefactor", par1.value, par1.unit⟩
  let par2 ← pset.par "index"
  let index : Parameter := ⟨"Index", qneg par2.value, par2.unit⟩
  let par3 ← pset.par "reference"
  let scale : Parameter := ⟨"Scale", par3.value, par3.unit⟩
  let ps ← BaseModel.init (.plist [prefactor, index, scale])
  pure ⟨.powerLaw, ps⟩

/-- `SpectralModelPowerLaw2.from_pset`: Integral ← amplitude, Index ← −index,
LowerLimit ← emin, UpperLimit ← emax. -/
def SpectralModelPowerLaw2.from_pset (pset : ParameterSet) : Except PyErr SpectralModel := do
  let par1 ← pset.par "amplitude"
  let integral : Parameter := ⟨"Integral", par1.value, par1.unit⟩
  let par2 ← pset.par "index"
  let index : Parameter := ⟨"Index", qneg par2.value, par2.unit⟩
  let par3 ← pset.par "emin"
  let lowerLimit : Parameter := ⟨"LowerLimit", par3.value, par3.unit⟩
  let par4 ← pset.par "emax"
  let upperLimit : Parameter := ⟨"UpperLimit", par4.value, par4.unit⟩
  let ps ← BaseModel.init (.plist [integral, index, lowerLimit, upperLimit])
  pure ⟨.powerLaw2, ps⟩

/-- `SpectralModelExpCutoff.from_pset`: Prefactor ← amplitude, Index ← index
(not negated), Cutoff ← `1 / lambda_` with the unit unchanged, Scale ←
reference. -/
def SpectralModelExpCutoff.from_pset (pset : ParameterSet) : Except PyErr SpectralModel := do
  let par1 ← pset.par "amplitude"
  let prefactor : Parameter := ⟨"Prefactor", par1.value, par1.unit⟩
  let par2 ← pset.par "index"
  let index : Parameter := ⟨"Index", par2.value, par2.unit⟩
  let par3 ← pset.par "lambda_"
  let cutoffValue ← pyRecip par3.value
  let cutoff : Parameter := ⟨"Cutoff", cutoffValue, par3.unit⟩
  let par4 ← pset.par "reference"
  let scale : Parameter := ⟨"Scale", par4.value, par4.unit⟩
  let ps ← BaseModel.init (.plist [prefactor, index, cutoff, scale])
  pure ⟨.expCutoff, ps⟩

/-- `SpectralModel.from_xml_dict`: parse the parameter list, then dispatch on
`data['@type']` by exact match against each variant's primary `xml_type`
(synonym lists are not consulted on this path). -/
def SpectralModel.from_xml_dict (data : XVal) : Except PyErr SpectralModel := do
  let model_type ← pyGetItem data "@type"
  let parameters ← ParameterSet.from_list_of_dict_xml (← pyGetItem data "parameter")
  if xvalEqStr model_type SpectralModelPowerLaw.xml_type then do
    let ps ← BaseModel.init (.pset parameters)
    pure ⟨.powerLaw, ps⟩
  else if xvalEqStr model_type SpectralModelPowerLaw2.xml_type then do
    let ps ← BaseModel.init (.pset parameters)
    pure ⟨.powerLaw2, ps⟩
  else if xvalEqStr model_type SpectralModelExpCutoff.xml_type then do
    let ps ← BaseModel.init (.pset parameters)
    pure ⟨.expCutoff, ps⟩
  else
    .error (.unknownModelError ("Unknown spatial model: " ++ pyStr model_type))

/-- `SpectralModel.to_xml`. -/
def SpectralModel.to_xml (m : SpectralModel) : String :=
  "<spectrum type=\"" ++ m.kind.xml_type ++ "\">\n" ++ m.parameters.to_xml ++
    "\n    </spectrum>"

/-- The three concrete spatial model classes. -/
inductive SpatialKind where
  | point
  | gauss
  | shell
deriving DecidableEq, Repr

/-- `SpatialModelPoint.xml_source_type`. -/
def SpatialModelPoint.xml_source_type : String := "PointSource"

/-- `SpatialModelPoint.xml_type`. -/
def SpatialModelPoint.xml_type : String := "Point"

/-- `SpatialModelPoint.xml_types`. -/
def SpatialModelPoint.xml_types : List String := [SpatialModelPoint.xml_type]

/-- `SpatialModelGauss.xml_source_type`. -/
def SpatialModelGauss.xml_source_type : String := "ExtendedSource"

/-- `SpatialModelGauss.xml_type`. -/
def SpatialModelGauss.xml_type : String := "Gauss"

/-- `SpatialModelGauss.xml_types`: the primary tag plus the synonym
`Gaussian`. -/
def SpatialModelGauss.xml_types : List String := [SpatialModelGauss.xml_type, "Gaussian"]

/-- `SpatialModelShell.xml_source_type`. -/
def SpatialModelShell.xml_source_type : String := "ExtendedSource"

/-- `SpatialModelShell.xml_type`. -/
def SpatialModelShell.xml_type : String := "Shell"

/-- `SpatialModelShell.xml_types`: the primary tag plus the synonym
`RadialShell`. -/
def SpatialModelShell.xml_types : List String := [SpatialModelShell.xml_type, "RadialShell"]

/-- `xml_type` of a spatial kind. -/
def SpatialKind.xml_type : SpatialKind → String
  | .point => SpatialModelPoint.xml_type
  | .gauss => SpatialModelGauss.xml_type
  | .shell => SpatialModelShell.xml_type

/-- `xml_source_type` of a spatial kind (Point → PointSource, Gauss/Shell →
ExtendedSource). -/
def SpatialKind.xml_source_type : SpatialKind → String
  | .point => SpatialModelPoint.xml_source_type
  | .gauss => SpatialModelGauss.xml_source_type
  | .shell => SpatialModelShell.xml_source_type

/-- A concrete spatial model: its class (kind) plus its `ParameterSet`. -/
structure SpatialModel where
  kind : SpatialKind
  parameters : ParameterSet
deriving DecidableEq, Repr

/-- `SpatialModel.from_xml_dict`: dispatch `data['@type']` by membership in
each variant's full `xml_types` synonym list and construct the variant with an
empty parameter list; unknown types raise `UnknownModelError`. -/
def SpatialModel.from_xml_dict (data : XVal) : Except PyErr SpatialModel := do
  let model_type ← pyGetItem data "@type"
  if xvalMemStr model_type SpatialModelPoint.xml_types then do
    let ps ← BaseModel.init (.plist [])
    pure ⟨.point, ps⟩
  else if xvalMemStr model_type SpatialModelGauss.xml_types then do
    let ps ← BaseModel.init (.plist [])
    pure ⟨.gauss, ps⟩
  else if xvalMemStr model_type SpatialModelShell.xml_types then do
    let ps ← BaseModel.init (.plist [])
    pure ⟨.shell, ps⟩
  else
    .error (.unknownModelError ("Unknown spatial model: " ++ pyStr model_type))

/-- `SpatialModel.to_xml`. -/
def SpatialModel.to_xml (m : SpatialModel) : String :=
  "<spatialModel type=\"" ++ m.kind.xml_type ++ "\">\n" ++ m.parameters.to_xml ++
    "\n    </spatialModel>"

/-- The catalog's native spectral-model dictionary,
`source.spectral_model.to_dict()`: the model-family `name` and the parameter
list (collaborator contract). -/
structure GSpectralData where
  name : String
  parameters : List GPar
deriving DecidableEq, Repr

/-- `str` of a `GSpectralData`, as `'...{}'.format(data)` renders the
dictionary: the family name and the parameter dictionaries. -/
def GSpectralData.pyRepr (d : GSpectralData) : String :=
  "\x7b" ++ sq ++ "name" ++ sq ++ ": " ++ sq ++ d.name ++ sq ++ ", " ++
    sq ++ "parameters" ++ sq ++ ": [" ++
    String.intercalate ", "
      (d.parameters.map fun p =>
        "\x7b" ++ sq ++ "name" ++ sq ++ ": " ++ sq ++ p.name ++ sq ++ ", " ++
          sq ++ "val" ++ sq ++ ": " ++ formatVal p.val ++ ", " ++
          sq ++ "unit" ++ sq ++ ": " ++ sq ++ p.unit ++ sq ++ "\x7d") ++
    "]\x7d"

/-- An astropy quantity as consumed here: a float value and a unit. -/
structure Quantity where
  value : ℚ
  unit : String
deriving DecidableEq, Repr

/-- Modelled from the spec: the catalog source object (the gamma-cat
collaborator data layer, not code under `src/`).  It exposes `.data` with
`common_name`, `morph_type`, `glon`, `glat`, `morph_sigma`, and
`.spectral_model.to_dict()`, which raises `ValueError` (carried here as
`Except.error ()`) when the source has no spectral model. -/
structure GammacatSource where
  common_name : String
  morph_type : String
  glon : Quantity
  glat : Quantity
  morph_sigma : Quantity
  spectral_model_to_dict : Except Unit GSpectralData

/-- `SpectralModel.from_gammacat`: a `ValueError` from `to_dict()` becomes
`NoDataAvailableError`; otherwise build the `ParameterSet` and dispatch on the
catalog family name, raising `UnknownModelError` naming the data when the
family is not recognized. -/
def SpectralModel.from_gammacat (source : GammacatSource) : Except PyErr SpectralModel :=
  match source.spectral_model_to_dict with
  | .error _ => .error .noDataAvailableError
  | .ok data =>
    let pset := ParameterSet.from_list_of_dict_gammacat data.parameters
    if data.name = "PowerLaw" then SpectralModelPowerLaw.from_pset pset
    else if data.name = "PowerLaw2" then SpectralModelPowerLaw2.from_pset pset
    else if data.name = "ExponentialCutoffPowerLaw" then SpectralModelExpCutoff.from_pset pset
    else .error (.unknownModelError ("Unknown spectral model: " ++ data.pyRepr))

/-- `SpatialModelPoint.from_gammacat`: GLON and GLAT only. -/
def SpatialModelPoint.from_gammacat (source : GammacatSource) : SpatialModel :=
  ⟨.point, ⟨[⟨"GLON", source.glon.value, source.glon.unit⟩,
             ⟨"GLAT", source.glat.value, source.glat.unit⟩]⟩⟩

/-- `SpatialModelGauss.from_gammacat`: GLON, GLAT, Sigma ← `morph_sigma`. -/
def SpatialModelGauss.from_gammacat (source : GammacatSource) : SpatialModel :=
  ⟨.gauss, ⟨[⟨"GLON", source.glon.value, source.glon.unit⟩,
             ⟨"GLAT", source.glat.value, source.glat.unit⟩,
             ⟨"Sigma", source.morph_sigma.value, source.morph_sigma.unit⟩]⟩⟩

/-- `SpatialModelShell.from_gammacat`: GLON, GLAT, Radius ← `morph_sigma`,
Width fixed at `0` with unit `deg`. -/
def SpatialModelShell.from_gammacat (source : GammacatSource) : SpatialModel :=
  ⟨.shell, ⟨[⟨"GLON", source.glon.value, source.glon.unit⟩,
             ⟨"GLAT", source.glat.value, source.glat.unit⟩,
             ⟨"Radius", source.morph_sigma.value, source.morph_sigma.unit⟩,
             ⟨"Width", 0, "deg"⟩]⟩⟩

/-- `SpatialModel.from_gammacat`: dispatch on the catalog `morph_type`
(`point`, `gauss`, `shell`), raising `UnknownModelError` otherwise (the
message interpolates `format(source)`, the collaborator object's own string
form; its common name stands in for it here). -/
def SpatialModel.from_gammacat (source : GammacatSource) : Except PyErr SpatialModel :=
  if source.morph_type = "point" then .ok (SpatialModelPoint.from_gammacat source)
  else if source.morph_type = "gauss" then .ok (SpatialModelGauss.from_gammacat source)
  else if source.morph_type = "shell" then .ok (SpatialModelShell.from_gammacat source)
  else .error (.unknownModelError ("Unknown spatial model: " ++ sq ++ source.common_name ++ sq))

/-- `class SourceModel`: one source's name, outer type attribute, and its two
sub-models. -/
structure SourceModel where
  source_name : String
  source_type : String
  spatial_model : SpatialModel
  spectral_model : SpectralModel
deriving DecidableEq, Repr

/-- `SourceModel.from_gammacat`: the name from `common_name`, the sub-models
from their `from_gammacat` constructors, and `source_type` derived from the
spatial model's `xml_source_type`. -/
def SourceModel.from_gammacat (source : GammacatSource) : Except PyErr SourceModel := do
  let source_name := source.common_name
  let spectral_model ← SpectralModel.from_gammacat source
  let spatial_model ← SpatialModel.from_gammacat source
  let source_type := spatial_model.kind.xml_source_type
  pure ⟨source_name, source_type, spatial_model, spectral_model⟩

/-- Extract the string payload of an attribute value (attribute values
produced by the XML primitive are always strings). -/
def strOf (v : XVal) : Except PyErr String :=
  match v with
  | .str s => .ok s
  | _ => .error (.typeError "expected a string value")

/-- The spatial-model selection inside `SourceModel.from_xml_dict`: the
`radialModel` child if present, else the `spatialModel` child, else the
`UnknownModelError` naming the source mapping. -/
def SourceModel.spatialFromData (data : XVal) : Except PyErr SpatialModel :=
  if pyContains data "radialModel" then do
    SpatialModel.from_xml_dict (← pyGetItem data "radialModel")
  else if pyContains data "spatialModel" then do
    SpatialModel.from_xml_dict (← pyGetItem data "spatialModel")
  else
    .error (.unknownModelError ("No spatial / radial model found for: " ++ xvalRepr data))

/-- `SourceModel.from_xml_dict`: `@name` and `@type` verbatim from the
document, the spectral sub-model from the `spectrum` child, the spatial
sub-model from `radialModel` or `spatialModel` (in that order, via
`spatialFromData`). -/
def SourceModel.from_xml_dict (data : XVal) : Except PyErr SourceModel := do
  let source_name ← strOf (← pyGetItem data "@name")
  let source_type ← strOf (← pyGetItem data "@type")
  let spectral_model ← SpectralModel.from_xml_dict (← pyGetItem data "spectrum")
  let spatial_model ← SourceModel.spatialFromData data
  pure ⟨source_name, source_type, spatial_model, spectral_model⟩

/-- `SourceModel.to_xml`: the fixed three-line `<source>` template. -/
def SourceModel.to_xml (m : SourceModel) : String :=
  "<source name=\"" ++ m.source_name ++ "\" type=\"" ++ m.source_type ++ "\">\n    " ++
    m.spectral_model.to_xml ++ "\n    " ++ m.spatial_model.to_xml ++ "\n</source>\n"

/-- `class SourceLibrary`: an ordered list of source models. -/
structure SourceLibrary where
  source_list : List SourceModel
deriving DecidableEq, Repr

/-- The loop body of `SourceLibrary.from_list_of_dict`: convert each iterated
element through `SourceModel.from_xml_dict` in order. -/
def sourceModelsFromList (items : List XVal) : Except PyErr (List SourceModel) :=
  match items with
  | [] => .ok []
  | d :: rest => do
    let m ← SourceModel.from_xml_dict d
    let ms ← sourceModelsFromList rest
    pure (m :: ms)

/-- `SourceLibrary.from_list_of_dict`: iterate the (dynamically typed)
argument — Python iteration of a dict yields its keys — and convert each
iterated element. -/
def SourceLibrary.from_list_of_dict (data : XVal) : Except PyErr SourceLibrary := do
  let items ← pyIter data
  let ms ← sourceModelsFromList items
  pure ⟨ms⟩

/-- `SourceLibrary.to_xml(title, header)` (defaults `title='sources'`,
`header='\n'` passed explicitly here): the fixed library template. -/
def SourceLibrary.to_xml (lib : SourceLibrary) (title header : String) : String :=
  "<?xml version=\"1.0\" ?>\n" ++ header ++ "\n" ++
    "<source_library title=\"" ++ title ++ "\">\n" ++ "\n" ++
    String.intercalate "\n" (lib.source_list.map SourceModel.to_xml) ++ "\n" ++
    "</source_library>\n"

/-- The character `<`. -/
def ltC : Char := Char.ofNat 60

/-- The character `>`. -/
def gtC : Char := Char.ofNat 62

/-- The character `/`. -/
def slashC : Char := Char.ofNat 47

/-- The character `=`. -/
def eqC : Char := Char.ofNat 61

/-- The character `?`. -/
def qmC : Char := Char.ofNat 63

/-- The character `"`. -/
def quoteC : Char := Char.ofNat 34

/-- XML whitespace: space, newline, tab, carriage return. -/
def isWsC (c : Char) : Bool :=
  c == Char.ofNat 32 || c == Char.ofNat 10 || c == Char.ofNat 9 || c == Char.ofNat 13

/-- Characters allowed in the tag and attribute names this format uses. -/
def isNameC (c : Char) : Bool := c.isAlpha || c.isDigit || c == Char.ofNat 95

/-- Strip surrounding whitespace from a character list. -/
def stripWs (l : List Char) : List Char :=
  ((l.dropWhile isWsC).reverse.dropWhile isWsC).reverse

/-- Parse a run of `name="value"` attribute pairs, stopping at the first
non-name character. -/
def parseAttrs : ℕ → List Char → Option (List (String × String) × List Char)
  | 0, _ => none
  | fuel + 1, cs =>
    let cs1 := cs.dropWhile isWsC
    match cs1 with
    | [] => some ([], cs1)
    | c :: _ =>
      if isNameC c then
        let nm := cs1.takeWhile isNameC
        let cs2 := cs1.dropWhile isNameC
        match cs2 with
        | c1 :: c2 :: cs3 =>
          if c1 = eqC ∧ c2 = quoteC then
            let v := cs3.takeWhile (fun ch => !(ch == quoteC))
            let cs4 := cs3.dropWhile (fun ch => !(ch == quoteC))
            match cs4 with
            | _ :: cs5 =>
              match parseAttrs fuel cs5 with
              | some (attrs, rest) => some ((String.mk nm, String.mk v) :: attrs, rest)
              | none => none
            | [] => none
          else none
        | _ => none
      else some ([], cs1)

/-- Replace the value stored under `key` (first occurrence). -/
def replaceAssoc (entries : List (String × XVal)) (key : String) (v : XVal) :
    List (String × XVal) :=
  match entries with
  | [] => []
  | e :: rest => if e.1 = key then (key, v) :: rest else e :: replaceAssoc rest key v

/-- Insert a child element's `(name, value)` into the accumulated entries with
the XML primitive's implicit list-promotion: a repeated name turns the stored
value into a list and appends. -/
def addChild (entries : List (String × XVal)) (key : String) (v : XVal) :
    List (String × XVal) :=
  match assocFind entries key with
  | none => entries ++ [(key, v)]
  | some (XVal.list l) => replaceAssoc entries key (XVal.list (l ++ [v]))
  | some old => replaceAssoc entries key (XVal.list [old, v])

/-- Assemble an element's value from its attributes (`@`-prefixed keys),
children (with list-promotion) and stripped text (`#text`, or the whole value
for a text-only element); an element with no content is `None`. -/
def mkXmlValue (attrs : List (String × String)) (children : List (String × XVal))
    (text : Option String) : XVal :=
  let entries := attrs.map fun a => ("@" ++ a.1, XVal.str a.2)
  let entries := children.foldl (fun es c => addChild es c.1 c.2) entries
  match text with
  | some t =>
    if entries.isEmpty then XVal.str t else XVal.dict (entries ++ [("#text", XVal.str t)])
  | none => if entries.isEmpty then XVal.null else XVal.dict entries

/-- Combine the text found before an element with the text found after it. -/
def mergeText (a b : Option String) : Option String :=
  match a with
  | none => b
  | some t => some (t ++ b.getD "")

/-- Parse a sequence of sibling elements (interleaved with text) up to a
closing tag or the end of input, returning the `(name, value)` child pairs in
document order, the non-whitespace text (stripped), and the unconsumed
remainder (starting at `</` when a closing tag was reached). -/
def parseNodes : ℕ → List Char → Option (List (String × XVal) × Option String × List Char)
  | 0, _ => none
  | fuel + 1, cs =>
    let text := cs.takeWhile fun c => !(c == ltC)
    let cs1 := cs.dropWhile fun c => !(c == ltC)
    let textOpt : Option String :=
      if ((text.dropWhile isWsC).isEmpty : Bool) then none else some (String.mk (stripWs text))
    match cs1 with
    | [] => some ([], textOpt, [])
    | [_] => none
    | _ :: c2 :: cs2 =>
      if c2 = slashC then
        some ([], textOpt, cs1)
      else
        let nm := (c2 :: cs2).takeWhile isNameC
        let csA := (c2 :: cs2).dropWhile isNameC
        if nm.isEmpty then none
        else
          match parseAttrs (csA.length + 1) csA with
          | none => none
          | some (attrs, csB) =>
            match csB with
            | [] => none
            | c3 :: csC =>
              if c3 = gtC then
                match parseNodes fuel csC with
                | none => none
                | some (children, childText, csD) =>
                  match csD with
                  | a :: b :: csE =>
                    if a = ltC ∧ b = slashC then
                      let cn := csE.takeWhile isNameC
                      let csF := csE.dropWhile isNameC
                      if cn = nm then
                        match csF with
                        | g :: csG =>
                          if g = gtC then
                            match parseNodes fuel csG with
                            | none => none
                            | some (sibs, sibText, rest) =>
                              some ((String.mk nm, mkXmlValue attrs children childText) :: sibs,
                                mergeText textOpt sibText, rest)
                          else none
                        | [] => none
                      else none
                    else none
                  | _ => none
              else if c3 = slashC then
                match csC with
                | g :: csG =>
                  if g = gtC then
                    match parseNodes fuel csG with
                    | none => none
                    | some (sibs, sibText, rest) =>
                      some ((String.mk nm, mkXmlValue attrs [] none) :: sibs,
                        mergeText textOpt sibText, rest)
                  else none
                | [] => none
              else none

/-- Modelled from the spec: the vendored XML primitive
`gammapy.extern.xmltodict.parse` (repository code not under `src/`), per the
collaborator contract — `parse(text) -> nested mapping` with `@attr` keys for
attributes and implicit list-promotion for repeated child elements.  It skips
an optional XML declaration and whitespace, parses the single root element,
and returns the one-entry root mapping; `none` models the parse error
(`ExpatError`) on malformed input. -/
def xmltodict_parse (s : String) : Option XVal :=
  let cs := s.data.dropWhile isWsC
  let cs :=
    match cs with
    | a :: b :: rest =>
      if a = ltC ∧ b = qmC then (rest.dropWhile fun c => !(c == gtC)).drop 1 else a :: b :: rest
    | other => other
  match parseNodes (cs.length + 2) cs with
  | some ([(nm, v)], none, rest) =>
    if ((rest.dropWhile isWsC).isEmpty : Bool) then some (XVal.dict [(nm, v)]) else none
  | _ => none

/-- `SourceLibrary.from_xml`: parse the text with the XML primitive, descend
to `['source_library']['source']`, and convert via `from_list_of_dict`. -/
def SourceLibrary.from_xml (xml : String) : Except PyErr SourceLibrary := do
  let full_dict ←
    match xmltodict_parse xml with
    | some v => Except.ok v
    | none => Except.error (.valueError "ExpatError: not well-formed XML")
  let sources_dict ← pyGetItem (← pyGetItem full_dict "source_library") "source"
  SourceLibrary.from_list_of_dict sources_dict

theorem dval_digitChar : ∀ d < 10, dval (digitChar d) = d := by decide

theorem isDigitC_digitChar : ∀ d < 10, isDigitC (digitChar d) = true := by decide

theorem isDigitC_dotC : isDigitC dotC = false := by decide

theorem ne_dashC_of_isDigitC {c : Char} (h : isDigitC c = true) : c ≠ dashC := by
  intro heq
  subst heq
  exact absurd h (by decide)

theorem parseFold_append (acc : ℕ) (l1 l2 : List Char) :
    parseFold acc (l1 ++ l2) = parseFold (parseFold acc l1) l2 :=
  List.foldl_append _ _ _ _

theorem natToDigitsAux_digits :
    ∀ (fuel n : ℕ), ∀ c ∈ natToDigitsAux fuel n, isDigitC c = true := by
  intro fuel
  induction fuel with
  | zero => intro n c hc; simp [natToDigitsAux] at hc
  | succ fuel ih =>
    intro n c hc
    rw [natToDigitsAux] at hc
    split at hc
    · next h10 =>
      simp only [List.mem_singleton] at hc
      subst hc
      exact isDigitC_digitChar n h10
    · next h10 =>
      rcases List.mem_append.mp hc with h | h
      · exact ih _ c h
      · simp only [List.mem_singleton] at h
        subst h
        exact isDigitC_digitChar _ (Nat.mod_lt _ (by omega))

theorem natToDigitsAux_ne_nil (fuel n : ℕ) : natToDigitsAux (fuel + 1) n ≠ [] := by
  rw [natToDigitsAux]
  split
  · simp
  · simp

theorem natToDigitsAux_parseFold :
    ∀ (fuel n acc : ℕ), n < 10 ^ fuel →
      parseFold acc (natToDigitsAux fuel n) =
        acc * 10 ^ (natToDigitsAux fuel n).length + n := by
  intro fuel
  induction fuel with
  | zero =>
    intro n acc h
    interval_cases n
    simp [natToDigitsAux, parseFold]
  | succ fuel ih =>
    intro n acc h
    rw [natToDigitsAux]
    split
    · next h10 =>
      simp [parseFold, dval_digitChar n h10]
      ring
    · next h10 =>
      have hdiv : n / 10 < 10 ^ fuel := by
        rw [Nat.div_lt_iff_lt_mul (by omega)]
        calc n < 10 ^ (fuel + 1) := h
          _ = 10 ^ fuel * 10 := by rw [pow_succ]
      rw [parseFold_append, ih (n / 10) acc hdiv]
      have hd : dval (digitChar (n % 10)) = n % 10 :=
        dval_digitChar _ (Nat.mod_lt _ (by omega))
      have hL : (natToDigitsAux fuel (n / 10) ++ [digitChar (n % 10)]).length =
          (natToDigitsAux fuel (n / 10)).length + 1 := by simp
      rw [hL]
      show 10 * (acc * 10 ^ (natToDigitsAux fuel (n / 10)).length + n / 10) +
          dval (digitChar (n % 10)) = _
      rw [hd, pow_succ]
      have hmod := Nat.div_add_mod n 10
      calc 10 * (acc * 10 ^ (natToDigitsAux fuel (n / 10)).length + n / 10) + n % 10
          = acc * (10 ^ (natToDigitsAux fuel (n / 10)).length * 10) +
              (10 * (n / 10) + n % 10) := by ring
        _ = acc * (10 ^ (natToDigitsAux fuel (n / 10)).length * 10) + n := by rw [hmod]

theorem fracDigits_length (k m : ℕ) : (fracDigits k m).length = k := by
  induction k generalizing m with
  | zero => rfl
  | succ k ih => simp [fracDigits, ih]

theorem fracDigits_digits :
    ∀ (k m : ℕ), m < 10 ^ k → ∀ c ∈ fracDigits k m, isDigitC c = true := by
  intro k
  induction k with
  | zero => intro m _ c hc; simp [fracDigits] at hc
  | succ k ih =>
    intro m hm c hc
    rw [fracDigits] at hc
    rcases List.mem_cons.mp hc with h | h
    · subst h
      refine isDigitC_digitChar _ ?_
      rw [Nat.div_lt_iff_lt_mul (by positivity)]
      calc m < 10 ^ (k + 1) := hm
        _ = 10 * 10 ^ k := by ring
    · exact ih _ (Nat.mod_lt _ (by positivity)) c h

theorem fracDigits_parseFold :
    ∀ (k m acc : ℕ), m < 10 ^ k →
      parseFold acc (fracDigits k m) = acc * 10 ^ k + m := by
  intro k
  induction k with
  | zero =>
    intro m acc h
    interval_cases m
    simp [fracDigits, parseFold]
  | succ k ih =>
    intro m acc h
    have hd : m / 10 ^ k < 10 := by
      rw [Nat.div_lt_iff_lt_mul (by positivity)]
      calc m < 10 ^ (k + 1) := h
        _ = 10 * 10 ^ k := by ring
    rw [fracDigits]
    have hstep : parseFold acc (digitChar (m / 10 ^ k) :: fracDigits k (m % 10 ^ k)) =
        parseFold (10 * acc + m / 10 ^ k) (fracDigits k (m % 10 ^ k)) := by
      simp [parseFold, dval_digitChar _ hd]
    rw [hstep, ih (m % 10 ^ k) _ (Nat.mod_lt _ (by positivity))]
    have hmod := Nat.div_add_mod m (10 ^ k)
    calc (10 * acc + m / 10 ^ k) * 10 ^ k + m % 10 ^ k
        = acc * (10 ^ k * 10) + (10 ^ k * (m / 10 ^ k) + m % 10 ^ k) := by ring
      _ = acc * 10 ^ (k + 1) + m := by rw [hmod, pow_succ]

theorem takeWhile_all {p : Char → Bool} :
    ∀ (l : List Char), (∀ x ∈ l, p x = true) → l.takeWhile p = l ∧ l.dropWhile p = [] := by
  intro l
  induction l with
  | nil => simp
  | cons c rest ih =>
    intro h
    have hc : p c = true := h c (List.mem_cons_self _ _)
    have hrest := ih fun x hx => h x (List.mem_cons_of_mem _ hx)
    simp [List.takeWhile_cons, List.dropWhile_cons, hc, hrest.1, hrest.2]

theorem takeWhile_split {p : Char → Bool} :
    ∀ (l1 : List Char) (c : Char) (l2 : List Char), (∀ x ∈ l1, p x = true) → p c = false →
      (l1 ++ c :: l2).takeWhile p = l1 ∧ (l1 ++ c :: l2).dropWhile p = c :: l2 := by
  intro l1
  induction l1 with
  | nil => intro c l2 _ hc; simp [List.takeWhile_cons, List.dropWhile_cons, hc]
  | cons a rest ih =>
    intro c l2 h hc
    have ha : p a = true := h a (List.mem_cons_self _ _)
    have hrest := ih c l2 (fun x hx => h x (List.mem_cons_of_mem _ hx)) hc
    simp [List.takeWhile_cons, List.dropWhile_cons, ha, hrest.1, hrest.2]

theorem rat_eq_num_of_den_one {q : ℚ} (h : q.den = 1) : q = (q.num : ℚ) := by
  conv_lhs => rw [← Rat.num_div_den q]
  rw [h]
  simp

theorem findExpAux_den :
    ∀ (fuel : ℕ) (q : ℚ) (acc : ℕ), (q * 10 ^ (acc + fuel)).den = 1 →
      (q * 10 ^ findExpAux fuel q acc).den = 1 := by
  intro fuel
  induction fuel with
  | zero => intro q acc h; simpa using h
  | succ fuel ih =>
    intro q acc h
    rw [findExpAux]
    split
    · next hc => rwa [qmul_eq, pow10Q_eq] at hc
    · next hc =>
      refine ih q (acc + 1) ?_
      rw [show acc + 1 + fuel = acc + (fuel + 1) by omega]
      exact h

theorem findExp_den (q : ℚ) (h : (q * 10 ^ 64).den = 1) :
    (q * 10 ^ findExp q).den = 1 :=
  findExpAux_den 64 q 0 (by simpa using h)

theorem parseUnsignedQ_formatCore (qa : ℚ) (n : ℕ) (hnum : 0 ≤ qa.num)
    (hden : (qa * 10 ^ n).den = 1) :
    parseUnsignedQ (formatCore qa n) = some qa := by
  have hqmul : qmul qa (pow10Q n) = qa * 10 ^ n := by rw [qmul_eq, pow10Q_eq]
  have hq0 : 0 ≤ qa := Rat.num_nonneg.mp hnum
  have hprod0 : 0 ≤ qa * 10 ^ n := mul_nonneg hq0 (by positivity)
  have hprodnum : 0 ≤ (qa * 10 ^ n).num := Rat.num_nonneg.mpr hprod0
  set m := (qmul qa (pow10Q n)).num.toNat with hm
  have hmQ : (m : ℚ) = qa * 10 ^ n := by
    have h1 : ((m : ℤ) : ℚ) = ((qa * 10 ^ n).num : ℚ) := by
      rw [hm, hqmul, Int.toNat_of_nonneg hprodnum]
    have h2 := rat_eq_num_of_den_one hden
    push_cast at h1
    rw [h1, ← h2]
  set ip := m / 10 ^ n with hip
  set fp := m % 10 ^ n with hfp
  have hipb : ip < 10 ^ (ip + 1) :=
    lt_of_lt_of_le (Nat.lt_pow_self (by omega) ip)
      (Nat.pow_le_pow_right (by omega) (Nat.le_succ ip))
  have hipd := natToDigitsAux_digits (ip + 1) ip
  have hipne := natToDigitsAux_ne_nil ip ip
  have hipfold : parseFold 0 (natToDigitsAux (ip + 1) ip) = ip := by
    rw [natToDigitsAux_parseFold (ip + 1) ip 0 hipb]
    simp
  have key : ∀ fpChars : List Char, (∀ c ∈ fpChars, isDigitC c = true) →
      parseUnsignedQ (natToDigitsAux (ip + 1) ip ++ [dotC] ++ fpChars) =
        some (qadd (intQ (parseFold 0 (natToDigitsAux (ip + 1) ip)))
          (qdiv (intQ (parseFold 0 fpChars)) (pow10Q fpChars.length))) := by
    intro fpChars hfpd
    have hsplit := takeWhile_split (p := isDigitC) (natToDigitsAux (ip + 1) ip) dotC fpChars
      hipd isDigitC_dotC
    have hall := takeWhile_all (p := isDigitC) fpChars hfpd
    simp only [parseUnsignedQ, List.append_assoc, List.singleton_append]
    rw [hsplit.1, hsplit.2, List.isEmpty_eq_false.mpr hipne]
    simp only [Bool.false_eq_true, if_false]
    rw [hall.1, hall.2]
    simp
  have hformat : formatCore qa n =
      natToDigitsAux (ip + 1) ip ++ [dotC] ++
        (if n = 0 then [digitChar 0] else fracDigits n fp) := by
    rw [formatCore]
  rw [hformat]
  by_cases hn0 : n = 0
  · subst hn0
    rw [if_pos rfl, key [digitChar 0] (by decide)]
    have hfold0 : parseFold 0 [digitChar 0] = 0 := by decide
    rw [hipfold, hfold0]
    have hipm : ip = m := by rw [hip]; simp
    rw [hipm]
    congr 1
    rw [qadd_eq, qdiv_eq, intQ_eq, intQ_eq, pow10Q_eq]
    simp [hmQ]
  · rw [if_neg hn0]
    have hpow : (0 : ℕ) < 10 ^ n := by positivity
    have hfpb : fp < 10 ^ n := Nat.mod_lt _ hpow
    rw [key (fracDigits n fp) (fracDigits_digits n fp hfpb)]
    rw [hipfold, fracDigits_parseFold n fp 0 hfpb, fracDigits_length]
    simp only [Nat.zero_mul, Nat.zero_add]
    congr 1
    rw [qadd_eq, qdiv_eq, intQ_eq, intQ_eq, pow10Q_eq]
    have hdmQ : (10 : ℚ) ^ n * (ip : ℚ) + (fp : ℚ) = (m : ℚ) := by
      rw [hip, hfp]
      exact_mod_cast Nat.div_add_mod m (10 ^ n)
    have h10 : (10 : ℚ) ^ n ≠ 0 := by positivity
    field_simp
    linear_combination hdmQ + hmQ

theorem cons_head_digits (l tail : List Char) (hne : l ≠ [])
    (hd : ∀ c ∈ l, isDigitC c = true) :
    ∃ c rest, l ++ tail = c :: rest ∧ isDigitC c = true := by
  cases l with
  | nil => exact absurd rfl hne
  | cons c rest => exact ⟨c, rest ++ tail, by simp, hd c (List.mem_cons_self _ _)⟩

theorem formatCore_head (qa : ℚ) (n : ℕ) :
    ∃ c rest, formatCore qa n = c :: rest ∧ isDigitC c = true := by
  rw [formatCore, List.append_assoc]
  exact cons_head_digits _ _ (natToDigitsAux_ne_nil _ _) (natToDigitsAux_digits _ _)

theorem parseValChars_formatValChars (q : ℚ) (h : (q * 10 ^ 64).den = 1) :
    parseValChars (formatValChars q) = some q := by
  have hn := findExp_den q h
  rw [formatValChars]
  by_cases hlt : q.num < 0
  · rw [if_pos hlt]
    have hnum : 0 ≤ (qneg q).num := by rw [qneg_eq, Rat.neg_num]; omega
    have hden : ((qneg q) * 10 ^ findExp q).den = 1 := by
      rw [qneg_eq, show (-q) * 10 ^ findExp q = -(q * 10 ^ findExp q) by ring, Rat.neg_den]
      exact hn
    have hcore := parseUnsignedQ_formatCore (qneg q) (findExp q) hnum hden
    simp only [parseValChars, if_true]
    rw [hcore]
    simp [qneg_eq]
  · rw [if_neg hlt]
    have hnum : 0 ≤ q.num := by omega
    have hcore := parseUnsignedQ_formatCore q (findExp q) hnum hn
    obtain ⟨c, rest, hEq, hcd⟩ := formatCore_head q (findExp q)
    rw [hEq]
    simp only [parseValChars]
    rw [if_neg (ne_dashC_of_isDigitC hcd), ← hEq]
    exact hcore

theorem parseVal_formatVal (q : ℚ) (h : (q * 10 ^ 64).den = 1) :
    parseVal (formatVal q) = .ok q := by
  rw [parseVal, formatVal]
  have hdata : (String.mk (formatValChars q)).data = formatValChars q := rfl
  rw [hdata, parseValChars_formatValChars q h]

theorem exbind_ok {α β : Type} (a : α) (f : α → Except PyErr β) :
    (Except.ok a >>= f) = f a := rfl

theorem exbind_err {α β : Type} (e : PyErr) (f : α → Except PyErr β) :
    ((Except.error e : Except PyErr α) >>= f) = .error e := rfl

theorem expure {α : Type} (a : α) : (pure a : Except PyErr α) = .ok a := rfl

theorem exceptBind_ok_iff {α β : Type} {x : Except PyErr α} {f : α → Except PyErr β} {b : β} :
    (x >>= f) = .ok b ↔ ∃ a, x = .ok a ∧ f a = .ok b := by
  cases x with
  | error e => simp [exbind_err]
  | ok a => simp [exbind_ok]

theorem pyRecip_ne_zero {v : ℚ} (h : v ≠ 0) : pyRecip v = .ok (1 / v) := by
  rw [pyRecip, if_neg (by simpa [Rat.num_eq_zero] using h), qdiv_eq]

theorem parFind_eq_none (nm : String) :
    ∀ l : List Parameter, (∀ p ∈ l, p.name ≠ nm) → parFind l nm = none := by
  intro l
  induction l with
  | nil => intro _; rfl
  | cons p rest ih =>
    intro h
    rw [parFind, if_neg fun he => h p (List.mem_cons_self _ _) he.symm]
    exact ih fun x hx => h x (List.mem_cons_of_mem _ hx)

theorem parFind_first (nm : String) :
    ∀ (pre : List Parameter) (p : Parameter) (rest : List Parameter), p.name = nm →
      (∀ q ∈ pre, q.name ≠ nm) → parFind (pre ++ p :: rest) nm = some p := by
  intro pre
  induction pre with
  | nil =>
    intro p rest hp _
    rw [List.nil_append, parFind, if_pos hp.symm]
  | cons a l ih =>
    intro p rest hp hpre
    rw [List.cons_append, parFind,
      if_neg fun he => hpre a (List.mem_cons_self _ _) he.symm]
    exact ih p rest hp fun x hx => hpre x (List.mem_cons_of_mem _ hx)

/-- Concrete set for the C1 counterexample: all four catalog parameter names
present, but `lambda_` has value `0`. -/
def claim1Pset0 : ParameterSet :=
  ⟨[⟨"amplitude", 1, "cm-2 s-1 TeV-1"⟩, ⟨"index", mkRat 23 10, ""⟩,
    ⟨"lambda_", 0, "1/TeV"⟩, ⟨"reference", 1, "TeV"⟩]⟩

/-- Claim C1, counterexample: `claim1Pset0` contains parameters named
`amplitude`, `index`, `lambda_`, `reference`, yet
`SpectralModelExpCutoff.from_pset` does not return a model — at
`lambda_ = 0.0` the reciprocal `1 / par.value` raises `ZeroDivisionError`. -/
theorem claim1_counterexample :
    SpectralModelExpCutoff.from_pset claim1Pset0 = .error .zeroDivisionError := rfl

/-- Claim C1 (amended: `lambda_`'s value must be nonzero, otherwise
`ZeroDivisionError` is raised): for every `ParameterSet` containing parameters
named `amplitude`, `index`, `lambda_` (with nonzero value) and `reference`,
`SpectralModelExpCutoff.from_pset` returns the model whose parameters are, in
order: `Prefactor` with amplitude's value, `Index` with index's value NOT
negated, `Cutoff` with the reciprocal of lambda_'s value and lambda_'s unit
unchanged, and `Scale` with reference's value. -/
theorem claim1_expcutoff_from_pset (pset : ParameterSet) (pa pb pl pr : Parameter)
    (h1 : pset.par "amplitude" = .ok pa) (h2 : pset.par "index" = .ok pb)
    (h3 : pset.par "lambda_" = .ok pl) (h4 : pset.par "reference" = .ok pr)
    (h5 : pl.value ≠ 0) :
    SpectralModelExpCutoff.from_pset pset =
      .ok ⟨.expCutoff, ⟨[⟨"Prefactor", pa.value, pa.unit⟩, ⟨"Index", pb.value, pb.unit⟩,
        ⟨"Cutoff", 1 / pl.value, pl.unit⟩, ⟨"Scale", pr.value, pr.unit⟩]⟩⟩ := by
  rw [SpectralModelExpCutoff.from_pset, h1, exbind_ok, h2, exbind_ok, h3, exbind_ok,
    pyRecip_ne_zero h5, exbind_ok, h4, exbind_ok]
  rfl

/-- Concrete set for the C1 witness, with the spec's example
`lambda_ = 0.1 (1/TeV)`. -/
def claim1Pset : ParameterSet :=
  ⟨[⟨"amplitude", mkRat 1 (10 ^ 12), "cm-2 s-1 TeV-1"⟩, ⟨"index", mkRat 23 10, ""⟩,
    ⟨"lambda_", mkRat 1 10, "1/TeV"⟩, ⟨"reference", 1, "TeV"⟩]⟩

/-- Witness for C1: at `lambda_ = 0.1 (1/TeV)` the conversion yields
`Cutoff = 1/0.1 = 10.0` with the unit `1/TeV` unchanged and `Index` not
negated. -/
theorem claim1_witness :
    SpectralModelExpCutoff.from_pset claim1Pset =
      .ok ⟨.expCutoff, ⟨[⟨"Prefactor", mkRat 1 (10 ^ 12), "cm-2 s-1 TeV-1"⟩,
        ⟨"Index", mkRat 23 10, ""⟩, ⟨"Cutoff", 1 / (mkRat 1 10 : ℚ), "1/TeV"⟩,
        ⟨"Scale", 1, "TeV"⟩]⟩⟩ ∧
    (1 : ℚ) / (mkRat 1 10 : ℚ) = 10 :=
  ⟨claim1_expcutoff_from_pset claim1Pset ⟨"amplitude", mkRat 1 (10 ^ 12), "cm-2 s-1 TeV-1"⟩
      ⟨"index", mkRat 23 10, ""⟩ ⟨"lambda_", mkRat 1 10, "1/TeV"⟩ ⟨"reference", 1, "TeV"⟩
      rfl rfl rfl rfl (by decide),
    by rw [Rat.mkRat_eq_div]; norm_num⟩

/-- Claim C2: for every `ParameterSet` containing parameters named
`amplitude`, `index` and `reference`, `SpectralModelPowerLaw.from_pset`
returns the model whose parameters are, in order: `Prefactor` with amplitude's
value unchanged, `Index` with index's value negated, and `Scale` with
reference's value unchanged, each unit copied from its source parameter. -/
theorem claim2_powerlaw_from_pset (pset : ParameterSet) (pa pb pr : Parameter)
    (h1 : pset.par "amplitude" = .ok pa) (h2 : pset.par "index" = .ok pb)
    (h3 : pset.par "reference" = .ok pr) :
    SpectralModelPowerLaw.from_pset pset =
      .ok ⟨.powerLaw, ⟨[⟨"Prefactor", pa.value, pa.unit⟩, ⟨"Index", -pb.value, pb.unit⟩,
        ⟨"Scale", pr.value, pr.unit⟩]⟩⟩ := by
  rw [SpectralModelPowerLaw.from_pset, h1, exbind_ok, h2, exbind_ok, h3, exbind_ok, qneg_eq]
  rfl

/-- Concrete set for the C2 witness: the spec's example
`amplitude = 1e-12 (U)`, `index = 2.3`, `reference = 1 (TeV)`. -/
def claim2Pset : ParameterSet :=
  ⟨[⟨"amplitude", mkRat 1 (10 ^ 12), "U"⟩, ⟨"index", mkRat 23 10, ""⟩,
    ⟨"reference", 1, "TeV"⟩]⟩

/-- Witness for C2: the spec example yields `Index = -2.3`,
`Prefactor = 1e-12 (U)`, `Scale = 1 (TeV)`. -/
theorem claim2_witness :
    SpectralModelPowerLaw.from_pset claim2Pset =
      .ok ⟨.powerLaw, ⟨[⟨"Prefactor", mkRat 1 (10 ^ 12), "U"⟩,
        ⟨"Index", -(mkRat 23 10 : ℚ), ""⟩, ⟨"Scale", 1, "TeV"⟩]⟩⟩ ∧
    -(mkRat 23 10 : ℚ) = mkRat (-23) 10 :=
  ⟨claim2_powerlaw_from_pset claim2Pset ⟨"amplitude", mkRat 1 (10 ^ 12), "U"⟩
      ⟨"index", mkRat 23 10, ""⟩ ⟨"reference", 1, "TeV"⟩ rfl rfl rfl,
    by decide⟩

/-- Claim C5: `SpectralModel.from_gammacat` raises two distinguishable
errors — when the catalog signals that no spectral-model data is available it
raises the distinct `NoDataAvailableError` (not `UnknownModelError`), and when
the catalog family name is none of `PowerLaw`, `PowerLaw2`,
`ExponentialCutoffPowerLaw` it raises `UnknownModelError` with a message
naming the offending data. -/
theorem claim5_from_gammacat_errors :
    (∀ source : GammacatSource, source.spectral_model_to_dict = .error () →
      SpectralModel.from_gammacat source = .error .noDataAvailableError) ∧
    (∀ (source : GammacatSource) (d : GSpectralData), source.spectral_model_to_dict = .ok d →
      d.name ∉ (["PowerLaw", "PowerLaw2", "ExponentialCutoffPowerLaw"] : List String) →
      SpectralModel.from_gammacat source =
        .error (.unknownModelError ("Unknown spectral model: " ++ d.pyRepr))) := by
  constructor
  · intro source h
    rw [SpectralModel.from_gammacat, h]
  · intro source d h ht
    simp only [List.mem_cons, List.not_mem_nil, or_false, not_or] at ht
    obtain ⟨ht1, ht2, ht3⟩ := ht
    rw [SpectralModel.from_gammacat, h]
    simp only [if_neg ht1, if_neg ht2, if_neg ht3]

/-- Concrete source for the C5 witness whose catalog spectral model is
unavailable. -/
def claim5SourceNoData : GammacatSource :=
  ⟨"src-nodata", "point", ⟨0, "deg"⟩, ⟨0, "deg"⟩, ⟨0, "deg"⟩, .error ()⟩

/-- Concrete source for the C5 witness with an unrecognized spectral family. -/
def claim5SourceUnknown : GammacatSource :=
  ⟨"src-unknown", "point", ⟨0, "deg"⟩, ⟨0, "deg"⟩, ⟨0, "deg"⟩,
    .ok ⟨"LogParabola", [⟨"amplitude", 1, "u"⟩]⟩⟩

/-- Witness for C5: a source with no spectral data raises
`NoDataAvailableError`, a `LogParabola` source raises `UnknownModelError`
naming the data. -/
theorem claim5_witness :
    SpectralModel.from_gammacat claim5SourceNoData = .error .noDataAvailableError ∧
    SpectralModel.from_gammacat claim5SourceUnknown =
      .error (.unknownModelError
        ("Unknown spectral model: " ++ GSpectralData.pyRepr ⟨"LogParabola", [⟨"amplitude", 1, "u"⟩]⟩)) :=
  ⟨claim5_from_gammacat_errors.1 claim5SourceNoData rfl,
   claim5_from_gammacat_errors.2 claim5SourceUnknown ⟨"LogParabola", [⟨"amplitude", 1, "u"⟩]⟩
     rfl (by decide)⟩

/-- Claim C6: `par(name)` returns the first parameter in stored order whose
name equals the given name exactly (with duplicate names, the first
occurrence), and when no member matches it raises a not-found `IndexError`
whose message contains both the attempted name and the `repr` of the full
set. -/
theorem claim6_par_lookup (ps : ParameterSet) (nm : String) :
    (∀ (pre : List Parameter) (p : Parameter) (rest : List Parameter),
      ps.data = pre ++ p :: rest → p.name = nm → (∀ q ∈ pre, q.name ≠ nm) →
      ps.par nm = .ok p) ∧
    ((∀ p ∈ ps.data, p.name ≠ nm) →
      ps.par nm = .error (.indexError
        ("Parameter " ++ nm ++ " not found for pset: " ++ ps.pyRepr))) := by
  constructor
  · intro pre p rest hdata hp hpre
    rw [ParameterSet.par, hdata, parFind_first nm pre p rest hp hpre]
  · intro h
    rw [ParameterSet.par, parFind_eq_none nm ps.data h]

/-- Concrete set for the C6 witness, with a duplicated name `dup`. -/
def claim6Pset : ParameterSet :=
  ⟨[⟨"alpha", 1, ""⟩, ⟨"dup", 2, "u"⟩, ⟨"dup", 3, "v"⟩]⟩

/-- Witness for C6: `par` returns the first `dup` occurrence only, and a
missing name produces the `IndexError` with the full-set repr. -/
theorem claim6_witness :
    claim6Pset.par "dup" = .ok ⟨"dup", 2, "u"⟩ ∧
    claim6Pset.par "missing" =
      .error (.indexError ("Parameter missing not found for pset: " ++ claim6Pset.pyRepr)) :=
  ⟨(claim6_par_lookup claim6Pset "dup").1 [⟨"alpha", 1, ""⟩] ⟨"dup", 2, "u"⟩
      [⟨"dup", 3, "v"⟩] rfl rfl (by decide),
   (claim6_par_lookup claim6Pset "missing").2 (by decide)⟩

/-- Claim C9: `BaseModel.__init__` (shared by the spectral and spatial model
constructors) accepts a `ParameterSet` as-is, auto-wraps a raw ordered list of
`Parameter` into a `ParameterSet`, and raises a `ValueError` construction
error on any other input. -/
theorem claim9_base_model_init :
    (∀ ps : ParameterSet, BaseModel.init (.pset ps) = .ok ps) ∧
    (∀ l : List Parameter, BaseModel.init (.plist l) = .ok ⟨l⟩) ∧
    (∀ s : String, BaseModel.init (.other s) =
      .error (.valueError ("Need list of Parameter or ParameterSet. Invalid input: " ++ s))) :=
  ⟨fun _ => rfl, fun _ => rfl, fun _ => rfl⟩

theorem xvalMemStr_eq (s : String) (l : List String) :
    xvalMemStr (.str s) l = decide (s ∈ l) := by
  simp [xvalMemStr, List.contains]

/-- Claim C4: `SpatialModel.from_xml_dict` matches the `@type` string against
each variant's full `xml_types` synonym set — both `Gauss` and `Gaussian`
yield the Gauss variant, both `Shell` and `RadialShell` the Shell variant —
constructs the matched variant with an empty parameter list, and raises the
unknown-model error for a `@type` string in none of the synonym sets. -/
theorem claim4_spatial_from_xml_dict (d : XVal) (t : String)
    (h : pyGetItem d "@type" = .ok (.str t)) :
    (t ∈ SpatialModelPoint.xml_types → SpatialModel.from_xml_dict d = .ok ⟨.point, ⟨[]⟩⟩) ∧
    ((t = "Gauss" ∨ t = "Gaussian") → SpatialModel.from_xml_dict d = .ok ⟨.gauss, ⟨[]⟩⟩) ∧
    ((t = "Shell" ∨ t = "RadialShell") → SpatialModel.from_xml_dict d = .ok ⟨.shell, ⟨[]⟩⟩) ∧
    (t ∉ SpatialModelPoint.xml_types ++ SpatialModelGauss.xml_types ++
        SpatialModelShell.xml_types →
      SpatialModel.from_xml_dict d =
        .error (.unknownModelError ("Unknown spatial model: " ++ t))) := by
  refine ⟨?_, ?_, ?_, ?_⟩
  · intro ht
    simp only [SpatialModelPoint.xml_types, SpatialModelPoint.xml_type,
      List.mem_singleton] at ht
    subst ht
    rw [SpatialModel.from_xml_dict, h, exbind_ok]
    rfl
  · rintro (rfl | rfl) <;> (rw [SpatialModel.from_xml_dict, h, exbind_ok]; rfl)
  · rintro (rfl | rfl) <;> (rw [SpatialModel.from_xml_dict, h, exbind_ok]; rfl)
  · intro ht
    have hmem : ∀ s : String, t = s →
        s ∈ SpatialModelPoint.xml_types ++ SpatialModelGauss.xml_types ++
          SpatialModelShell.xml_types → False :=
      fun s he hs => ht (he ▸ hs)
    have ht1 : t ≠ "Point" := fun he => hmem _ he (by decide)
    have ht2 : t ≠ "Gauss" := fun he => hmem _ he (by decide)
    have ht3 : t ≠ "Gaussian" := fun he => hmem _ he (by decide)
    have ht4 : t ≠ "Shell" := fun he => hmem _ he (by decide)
    have ht5 : t ≠ "RadialShell" := fun he => hmem _ he (by decide)
    rw [SpatialModel.from_xml_dict, h, exbind_ok]
    simp [xvalMemStr_eq, SpatialModelPoint.xml_types, SpatialModelGauss.xml_types,
      SpatialModelShell.xml_types, SpatialModelPoint.xml_type, SpatialModelGauss.xml_type,
      SpatialModelShell.xml_type, ht1, ht2, ht3, ht4, ht5, pyStr]

/-- Witness for C4: `Gaussian` resolves to the Gauss variant, `RadialShell` to
the Shell variant (both with empty parameters), and `Ellipse` raises the
unknown-model error. -/
theorem claim4_witness :
    SpatialModel.from_xml_dict (XVal.dict [("@type", XVal.str "Gaussian")]) =
      .ok ⟨.gauss, ⟨[]⟩⟩ ∧
    SpatialModel.from_xml_dict (XVal.dict [("@type", XVal.str "RadialShell")]) =
      .ok ⟨.shell, ⟨[]⟩⟩ ∧
    SpatialModel.from_xml_dict (XVal.dict [("@type", XVal.str "Ellipse")]) =
      .error (.unknownModelError "Unknown spatial model: Ellipse") :=
  ⟨(claim4_spatial_from_xml_dict (XVal.dict [("@type", XVal.str "Gaussian")])
      "Gaussian" rfl).2.1 (Or.inr rfl),
   (claim4_spatial_from_xml_dict (XVal.dict [("@type", XVal.str "RadialShell")])
      "RadialShell" rfl).2.2.1 (Or.inr rfl),
   (claim4_spatial_from_xml_dict (XVal.dict [("@type", XVal.str "Ellipse")])
      "Ellipse" rfl).2.2.2 (by decide)⟩

/-- Claim C8: a `SourceModel` built by `from_gammacat` always has
`source_type` equal to its spatial model's `xml_source_type` (derived, never
independently chosen), whereas `from_xml_dict` takes `source_type` verbatim
from the document's `@type` attribute without cross-checking it against the
spatial model. -/
theorem claim8_source_type_consistency :
    (∀ (source : GammacatSource) (m : SourceModel),
      SourceModel.from_gammacat source = .ok m →
      m.source_type = m.spatial_model.kind.xml_source_type) ∧
    (∀ (d : XVal) (t : String) (m : SourceModel),
      pyGetItem d "@type" = .ok (.str t) →
      SourceModel.from_xml_dict d = .ok m → m.source_type = t) := by
  constructor
  · intro source m hok
    rw [SourceModel.from_gammacat] at hok
    rw [exceptBind_ok_iff] at hok
    obtain ⟨sm, _, hok⟩ := hok
    rw [exceptBind_ok_iff] at hok
    obtain ⟨sp, _, hok⟩ := hok
    rw [expure] at hok
    cases hok
    rfl
  · intro d t m h hok
    rw [SourceModel.from_xml_dict] at hok
    rw [exceptBind_ok_iff] at hok
    obtain ⟨r1, _, hok⟩ := hok
    rw [exceptBind_ok_iff] at hok
    obtain ⟨nm, _, hok⟩ := hok
    rw [exceptBind_ok_iff] at hok
    obtain ⟨r2, hr2, hok⟩ := hok
    rw [h] at hr2
    cases hr2
    rw [exceptBind_ok_iff] at hok
    obtain ⟨ty, hty, hok⟩ := hok
    simp only [strOf] at hty
    cases hty
    rw [exceptBind_ok_iff] at hok
    obtain ⟨spec, _, hok⟩ := hok
    rw [exceptBind_ok_iff] at hok
    obtain ⟨spat, _, hok⟩ := hok
    rw [exceptBind_ok_iff] at hok
    obtain ⟨spatial, _, hok⟩ := hok
    rw [expure] at hok
    cases hok
    rfl

/-- Concrete catalog source for the C8 witness (point morphology, PowerLaw
spectrum). -/
def claim8Source : GammacatSource :=
  ⟨"Crab", "point", ⟨mkRat 1845 10, "deg"⟩, ⟨mkRat (-58) 10, "deg"⟩, ⟨0, "deg"⟩,
    .ok ⟨"PowerLaw", [⟨"amplitude", 1, "u"⟩, ⟨"index", 2, ""⟩, ⟨"reference", 1, "TeV"⟩]⟩⟩

/-- The model `from_gammacat` builds for `claim8Source`. -/
def claim8Model : SourceModel :=
  ⟨"Crab", "PointSource",
    ⟨.point, ⟨[⟨"GLON", mkRat 1845 10, "deg"⟩, ⟨"GLAT", mkRat (-58) 10, "deg"⟩]⟩⟩,
    ⟨.powerLaw, ⟨[⟨"Prefactor", 1, "u"⟩, ⟨"Index", mkRat (-2) 1, ""⟩, ⟨"Scale", 1, "TeV"⟩]⟩⟩⟩

/-- XML source mapping for the C8 witness whose outer `@type` attribute
(`PointSource`) contradicts its spatial model (`Gauss`). -/
def claim8Dict : XVal :=
  .dict [("@name", .str "mismatch"), ("@type", .str "PointSource"),
    ("spectrum", .dict [("@type", .str "PowerLaw"),
      ("parameter", .list [.dict [("@name", .str "Prefactor"), ("@value", .str "1.0"),
        ("@unit", .str "u")]])]),
    ("spatialModel", .dict [("@type", .str "Gauss")])]

/-- The model `from_xml_dict` builds for `claim8Dict`: `source_type` is taken
verbatim even though the spatial model is extended. -/
def claim8XmlModel : SourceModel :=
  ⟨"mismatch", "PointSource", ⟨.gauss, ⟨[]⟩⟩, ⟨.powerLaw, ⟨[⟨"Prefactor", 1, "u"⟩]⟩⟩⟩

/-- Witness for C8: the catalog-built model derives `PointSource` from its
point morphology, and the XML-built model keeps the contradictory verbatim
`PointSource` type next to a Gauss spatial model. -/
theorem claim8_witness :
    (SourceModel.from_gammacat claim8Source = .ok claim8Model ∧
      claim8Model.source_type = claim8Model.spatial_model.kind.xml_source_type) ∧
    (SourceModel.from_xml_dict claim8Dict = .ok claim8XmlModel ∧
      claim8XmlModel.source_type = "PointSource" ∧
      claim8XmlModel.spatial_model.kind = .gauss) :=
  ⟨⟨rfl, claim8_source_type_consistency.1 claim8Source claim8Model rfl⟩,
   ⟨rfl, claim8_source_type_consistency.2 claim8Dict "PointSource" claim8XmlModel rfl rfl,
    rfl⟩⟩

/-- Claim C7: `Parameter(name, value, unit).to_xml()` renders the fixed
fragment `<parameter name="..." value="..." unit="..."/>` (indented by the
template's eight spaces) with exactly that attribute order and quoting and
exactly the triple substituted; re-parsing the fragment's attribute mapping
through `Parameter.from_dict_xml` recovers the same triple, modulo the
value's string-to-float formatting (which round-trips exactly for values with
a terminating decimal expansion, the hypothesis); an absent `@unit` key
defaults the unit to the empty string. -/
theorem claim7_parameter_xml_roundtrip (nm unitStr : String) (q : ℚ)
    (h : (qmul q (pow10Q 64)).den = 1) :
    Parameter.to_xml ⟨nm, q, unitStr⟩ =
      "        <parameter name=\"" ++ nm ++ "\" value=\"" ++ formatVal q ++
        "\" unit=\"" ++ unitStr ++ "\"/>" ∧
    Parameter.from_dict_xml (.dict [("@name", .str nm), ("@value", .str (formatVal q)),
        ("@unit", .str unitStr)]) = .ok ⟨nm, q, unitStr⟩ ∧
    Parameter.from_dict_xml (.dict [("@name", .str nm), ("@value", .str (formatVal q))]) =
      .ok ⟨nm, q, ""⟩ := by
  rw [qmul_eq, pow10Q_eq] at h
  have hpv := parseVal_formatVal q h
  refine ⟨rfl, ?_, ?_⟩
  · have hred : Parameter.from_dict_xml (.dict [("@name", .str nm),
        ("@value", .str (formatVal q)), ("@unit", .str unitStr)]) =
        parseVal (formatVal q) >>= fun v => pure ⟨nm, v, unitStr⟩ := rfl
    rw [hred, hpv, exbind_ok, expure]
  · have hred : Parameter.from_dict_xml (.dict [("@name", .str nm),
        ("@value", .str (formatVal q))]) =
        parseVal (formatVal q) >>= fun v => pure ⟨nm, v, ""⟩ := rfl
    rw [hred, hpv, exbind_ok, expure]

/-- The value `2.3` for the C7 witness. -/
def claim7Value : ℚ := mkRat 23 10

/-- Witness for C7 at the triple `("Prefactor", 2.3, "TeV")`: the rendered
fragment, the exact attribute round-trip, and the empty-unit default. -/
theorem claim7_witness :
    (qmul claim7Value (pow10Q 64)).den = 1 ∧
    formatVal claim7Value = "2.3" ∧
    (Parameter.to_xml ⟨"Prefactor", claim7Value, "TeV"⟩ =
      "        <parameter name=\"" ++ "Prefactor" ++ "\" value=\"" ++ formatVal claim7Value ++
        "\" unit=\"" ++ "TeV" ++ "\"/>" ∧
    Parameter.from_dict_xml (.dict [("@name", .str "Prefactor"),
        ("@value", .str (formatVal claim7Value)), ("@unit", .str "TeV")]) =
      .ok ⟨"Prefactor", claim7Value, "TeV"⟩ ∧
    Parameter.from_dict_xml (.dict [("@name", .str "Prefactor"),
        ("@value", .str (formatVal claim7Value))]) = .ok ⟨"Prefactor", claim7Value, ""⟩) :=
  ⟨by decide, rfl, claim7_parameter_xml_roundtrip "Prefactor" "TeV" claim7Value (by decide)⟩

/-- One-element source library for C3: one PointSource with a PowerLaw
spectrum, as the spec's end-to-end round-trip property quantifies over. -/
def claim3Source : SourceModel :=
  ⟨"source1", "PointSource",
    ⟨.point, ⟨[⟨"GLON", mkRat 1845 10, "deg"⟩, ⟨"GLAT", mkRat (-5) 10, "deg"⟩]⟩⟩,
    ⟨.powerLaw, ⟨[⟨"Prefactor", mkRat 1 (10 ^ 12), "cm-2 s-1 TeV-1"⟩,
      ⟨"Index", mkRat (-23) 10, ""⟩, ⟨"Scale", 1, "TeV"⟩]⟩⟩⟩

/-- The C3 library: exactly one source. -/
def claim3Library : SourceLibrary := ⟨[claim3Source]⟩

set_option maxRecDepth 100000 in
/-- Claim C3 (code bug): serializing the one-element PointSource/PowerLaw
library with `to_xml` (the default `title='sources'`, `header='\n'`) and
re-parsing the produced text with `from_xml` does NOT yield a one-element
library: the XML primitive maps the document's single `source` element to a
mapping rather than a one-element list, `from_list_of_dict` therefore
iterates the mapping's keys, and indexing the first key string raises
`TypeError` — the round-trip the spec requires crashes. -/
theorem claim3_roundtrip_crash :
    claim3Library.source_list.length = 1 ∧
    claim3Library.source_list.map SourceModel.source_type = ["PointSource"] ∧
    SourceLibrary.from_xml (claim3Library.to_xml "sources" "\n") =
      .error (.typeError "string indices must be integers") :=
  ⟨rfl, rfl, rfl⟩

/-- A well-formed XML document with exactly one `source` element, for C10. -/
def oneSourceDoc : String :=
  "<source_library title=\"lib\">\n<source name=\"a\" type=\"PointSource\">\n" ++
    "<spectrum type=\"PowerLaw\">\n<parameter name=\"Prefactor\" value=\"1.0\" unit=\"u\"/>\n" ++
    "<parameter name=\"Index\" value=\"-2.0\" unit=\"\"/>\n" ++
    "<parameter name=\"Scale\" value=\"1.0\" unit=\"TeV\"/>\n</spectrum>\n" ++
    "<spatialModel type=\"Point\">\n</spatialModel>\n</source>\n</source_library>\n"

set_option maxRecDepth 100000 in
/-- Claim C10: `SourceLibrary.from_list_of_dict` iterates its argument and
converts each iterated element through `SourceModel.from_xml_dict` in order;
iterating a mapping yields the mapping's string keys, so a nonempty source
mapping (what the XML primitive produces for the `source_library.source`
entry of a document with exactly one `source` element) raises `TypeError` at
its first key, an empty mapping yields an empty library, and a one-source
document is therefore never converted into a one-element library. -/
theorem claim10_single_source_dict :
    (∀ entries : List (String × XVal),
      pyIter (XVal.dict entries) = .ok (entries.map fun e => XVal.str e.1)) ∧
    (∀ (k : String) (v : XVal) (rest : List (String × XVal)),
      SourceLibrary.from_list_of_dict (XVal.dict ((k, v) :: rest)) =
        .error (.typeError "string indices must be integers")) ∧
    SourceLibrary.from_list_of_dict (XVal.dict []) = .ok ⟨[]⟩ ∧
    SourceLibrary.from_xml oneSourceDoc =
      .error (.typeError "string indices must be integers") :=
  ⟨fun _ => rfl, fun _ _ _ => rfl, rfl, rfl⟩

end Gammapy
